import Mathlib

/-!
# Gearsystem Qt shell: `MainWindow`

A shallow embedding of `platforms/qt-shared/MainWindow.cpp`.

The window talks to collaborators that live outside this file (the render
surface `m_pGLFrame`, the engine `m_pEmulator`, the Qt window itself and the
settings dialogs).  Every call the handlers make on a collaborator is appended,
in program order, to the `calls` field of the window state, so that statements
such as "this handler issues no `ResumeRenderThread` call" are statements about
that list.  The members of `MainWindow` itself (`m_bFullscreen`,
`m_iScreenSize`, `m_iSelectedSlot`, `m_bMenuPressed`) and the check marks of the
menu actions read or written by the handlers are fields of the state.

C++ `int` values are modelled as mathematical integers; `/` on `int` is
truncating division (`Int.tdiv`).  The products `GS_SMS_WIDTH * factor` and
`GS_SMS_HEIGHT * factor` are taken at their mathematical value, which is what
the C++ multiplication yields as long as the value lies in the range of `int`
(`inIntRange`); beyond that range the C++ product overflows and the model says
nothing about it.  A statement about a product of a value that the code does
not check (the persisted zoom factor) therefore carries `inIntRange` as a
hypothesis.
-/

namespace Gearsystem

/-! ## Types declared outside `MainWindow.cpp` -/

/-- Modelled from the spec: the enumeration `GS_Joypads` is declared in the
engine headers (`definitions.h`); the handlers only ever name `Joypad_1`. -/
inductive GS_Joypads
  | Joypad_1
  | Joypad_2
  deriving DecidableEq, Repr

/-- Modelled from the spec: the enumeration `GS_Keys` is declared in the engine
headers; its members are the seven logical buttons named by `keyPressEvent`
(`Key_1` and `Key_2` are the spec's Button1 and Button2). -/
inductive GS_Keys
  | Key_Up
  | Key_Down
  | Key_Left
  | Key_Right
  | Key_1
  | Key_2
  | Key_Start
  deriving DecidableEq, Repr

/-- Qt's `QWIDGETSIZE_MAX`, `(1 << 24) - 1`. -/
def QWIDGETSIZE_MAX : Int := 16777215

/-- The zoom actions `actionX_1 .. actionX_5` of the settings menu. -/
inductive SizeAction
  | actionX_1
  | actionX_2
  | actionX_3
  | actionX_4
  | actionX_5
  deriving DecidableEq, Repr

/-- The state-slot actions `action1 .. action5` of the game menu. -/
inductive SlotAction
  | action1
  | action2
  | action3
  | action4
  | action5
  deriving DecidableEq, Repr

/-- The payload given to each zoom action by the constructor
(`m_pUI->actionX_k->setData(k)`, lines 66-70). -/
def SizeAction.data : SizeAction → Int
  | .actionX_1 => 1
  | .actionX_2 => 2
  | .actionX_3 => 3
  | .actionX_4 => 4
  | .actionX_5 => 5

/-- The payload given to each slot action by the constructor
(`m_pUI->actionk->setData(k)`, lines 72-76). -/
def SlotAction.data : SlotAction → Int
  | .action1 => 1
  | .action2 => 2
  | .action3 => 3
  | .action4 => 4
  | .action5 => 5

/-- One call made by a handler on a collaborator. -/
inductive Call
  /-- Call `m_pGLFrame->PauseRenderThread()` -/
  | PauseRenderThread
  /-- Call `m_pGLFrame->ResumeRenderThread()` -/
  | ResumeRenderThread
  /-- Call `m_pGLFrame->StopRenderThread()` -/
  | StopRenderThread
  /-- Call `m_pGLFrame->setMaximumSize(w, h)` -/
  | glSetMaximumSize (w h : Int)
  /-- Call `m_pGLFrame->setMinimumSize(w, h)` -/
  | glSetMinimumSize (w h : Int)
  /-- Call `m_pGLFrame->setGeometry(x, y, w, h)` -/
  | glSetGeometry (x y w h : Int)
  /-- Call `m_pGLFrame->move(x, y)` -/
  | glMove (x y : Int)
  /-- Call `m_pEmulator->LoadRom(path, saveInROMFolder)` -/
  | LoadRom (path : String) (saveInROMFolder : Bool)
  /-- Call `m_pEmulator->SaveState(slot)` -/
  | SaveState (slot : Int)
  /-- Call `m_pEmulator->LoadState(slot)` -/
  | LoadState (slot : Int)
  /-- Call `m_pEmulator->KeyPressed(joypad, key)` -/
  | KeyPressed (joypad : GS_Joypads) (key : GS_Keys)
  /-- Call `m_pEmulator->KeyReleased(joypad, key)` -/
  | KeyReleased (joypad : GS_Joypads) (key : GS_Keys)
  /-- Call `this->showNormal()` -/
  | showNormal
  /-- Call `this->showFullScreen()` -/
  | showFullScreen
  /-- Call `this->setSizePolicy(QSizePolicy::Preferred, QSizePolicy::Preferred)` -/
  | setSizePolicyPreferred
  /-- Call `this->setMaximumSize(w, h)` -/
  | setMaximumSize (w h : Int)
  /-- Call `this->setMinimumSize(w, h)` -/
  | setMinimumSize (w h : Int)
  /-- Call `setFocus()` -/
  | setFocus
  /-- Call `activateWindow()` -/
  | activateWindow
  /-- Call `LoadSettings(settings)` of the input, video or sound dialog, inside the
  settings group of that name -/
  | dialogLoadSettings (group : String)
  deriving DecidableEq, Repr

/-- The state of the main window. -/
structure MainWindow where
  m_bFullscreen : Bool
  m_iScreenSize : Int
  m_iSelectedSlot : Int
  m_bMenuPressed : Fin 4 → Bool
  /-- check mark of `m_pUI->actionPause` -/
  actionPause_checked : Bool
  /-- check mark of `m_pUI->actionSave_RAM_in_ROM_folder` -/
  actionSave_RAM_in_ROM_folder_checked : Bool
  /-- check marks of `m_pUI->action1 .. action5` -/
  slotChecked : SlotAction → Bool
  /-- check marks of `m_pUI->actionX_1 .. actionX_5` -/
  sizeChecked : SizeAction → Bool
  /-- whether `m_pUI->menubar` is shown -/
  menubarVisible : Bool
  /-- the calls made on collaborators so far, oldest first -/
  calls : List Call

/-- Append one collaborator call to the log. -/
def emit (c : Call) (s : MainWindow) : MainWindow :=
  { s with calls := s.calls ++ [c] }

/-- The calls a handler `f` makes when it runs in state `s`. -/
def callsOf (f : MainWindow → MainWindow) (s : MainWindow) : List Call :=
  (f s).calls.drop s.calls.length

/-- The members as the constructor sets them (lines 36-40) before any event,
with a window that has not yet called a collaborator.  The constructor assigns
`m_bMenuPressed[0..2]` only; index 3 is taken to be `false` here. -/
def MainWindow.start : MainWindow :=
  { m_bFullscreen := false
    m_iScreenSize := 2
    m_iSelectedSlot := 1
    m_bMenuPressed := fun _ => false
    actionPause_checked := false
    actionSave_RAM_in_ROM_folder_checked := false
    slotChecked := fun _ => false
    sizeChecked := fun _ => false
    menubarVisible := true
    calls := [] }

/-! ## Menu handlers (lines 294-350) -/

/-- Handler `MainWindow::MenuReleased`: the loop returns at the first set flag; when no
flag is set the render thread is resumed. -/
def MenuReleased (s : MainWindow) : MainWindow :=
  if ([0, 1, 2, 3] : List (Fin 4)).any (fun i => s.m_bMenuPressed i) then s
  else emit .ResumeRenderThread s

def MenuGameBoyPressed (s : MainWindow) : MainWindow :=
  emit .PauseRenderThread { s with m_bMenuPressed := Function.update s.m_bMenuPressed 0 true }

def MenuGameBoyReleased (s : MainWindow) : MainWindow :=
  MenuReleased { s with m_bMenuPressed := Function.update s.m_bMenuPressed 0 false }

def MenuSettingsPressed (s : MainWindow) : MainWindow :=
  emit .PauseRenderThread { s with m_bMenuPressed := Function.update s.m_bMenuPressed 1 true }

def MenuSettingsReleased (s : MainWindow) : MainWindow :=
  MenuReleased { s with m_bMenuPressed := Function.update s.m_bMenuPressed 1 false }

def MenuDebugPressed (s : MainWindow) : MainWindow :=
  emit .PauseRenderThread { s with m_bMenuPressed := Function.update s.m_bMenuPressed 2 true }

def MenuDebugReleased (s : MainWindow) : MainWindow :=
  MenuReleased { s with m_bMenuPressed := Function.update s.m_bMenuPressed 2 false }

def MenuAboutPressed (s : MainWindow) : MainWindow :=
  emit .PauseRenderThread { s with m_bMenuPressed := Function.update s.m_bMenuPressed 3 true }

def MenuAboutReleased (s : MainWindow) : MainWindow :=
  MenuReleased { s with m_bMenuPressed := Function.update s.m_bMenuPressed 3 false }

/-- The four menu categories, in the order of their `m_bMenuPressed` slots. -/
inductive Menu
  | Game
  | Settings
  | Debug
  | Help
  deriving DecidableEq, Repr, Fintype

/-- The slot of `m_bMenuPressed` written by the handlers of a menu. -/
def Menu.slot : Menu → Fin 4
  | .Game => 0
  | .Settings => 1
  | .Debug => 2
  | .Help => 3

/-- The `aboutToShow` slot connected to each menu (constructor, lines 57-64). -/
def menuPressed : Menu → MainWindow → MainWindow
  | .Game => MenuGameBoyPressed
  | .Settings => MenuSettingsPressed
  | .Debug => MenuDebugPressed
  | .Help => MenuAboutPressed

/-- The `aboutToHide` slot connected to each menu (constructor, lines 57-64). -/
def menuReleased : Menu → MainWindow → MainWindow
  | .Game => MenuGameBoyReleased
  | .Settings => MenuSettingsReleased
  | .Debug => MenuDebugReleased
  | .Help => MenuAboutReleased

/-! ## Application events (lines 352-356 and 433-445) -/

/-- Handler `MainWindow::closeEvent`, as far as the window's own effect goes. -/
def closeEvent (s : MainWindow) : MainWindow :=
  emit .StopRenderThread s

/-- The event types `eventFilter` distinguishes. -/
inductive QEventType
  | ApplicationActivate
  | ApplicationDeactivate
  | Other
  deriving DecidableEq, Repr

/-- Handler `MainWindow::eventFilter`, as far as the window's own effect goes (the
result is that of the base class). -/
def eventFilter (t : QEventType) (s : MainWindow) : MainWindow :=
  match t with
  | .ApplicationActivate => emit .ResumeRenderThread s
  | .ApplicationDeactivate => emit .PauseRenderThread s
  | .Other => s

/-! ## ROM and state commands (lines 127-198) -/

/-- Handler `MainWindow::InitalGameBoyLoadROM`; `none` is the null pointer. -/
def InitalGameBoyLoadROM (szFilePath : Option String) (s : MainWindow) : MainWindow :=
  match szFilePath with
  | some path =>
    let s1 := emit .PauseRenderThread s
    let s2 := emit (.LoadRom path s1.actionSave_RAM_in_ROM_folder_checked) s1
    let s3 := { s2 with actionPause_checked := false }
    let s4 := emit .setFocus s3
    let s5 := emit .activateWindow s4
    emit .ResumeRenderThread s5
  | none => s

/-- Handler `MainWindow::MenuGameBoyLoadROM`; `filename` is what the file dialog
returns, `none` being the null string of a cancelled dialog. -/
def MenuGameBoyLoadROM (filename : Option String) (s : MainWindow) : MainWindow :=
  let s1 := emit .PauseRenderThread s
  let s2 :=
    match filename with
    | some path =>
      { emit (.LoadRom path s1.actionSave_RAM_in_ROM_folder_checked) s1 with
        actionPause_checked := false }
    | none => s1
  let s3 := emit .setFocus s2
  let s4 := emit .activateWindow s3
  emit .ResumeRenderThread s4

/-- Handler `MainWindow::MenuGameBoySelectStateSlot`. -/
def MenuGameBoySelectStateSlot (action : SlotAction) (s : MainWindow) : MainWindow :=
  { s with
    slotChecked := Function.update (fun _ => false) action true
    m_iSelectedSlot := action.data }

/-- Handler `MainWindow::MenuGameBoySaveState`. -/
def MenuGameBoySaveState (s : MainWindow) : MainWindow :=
  emit (.SaveState s.m_iSelectedSlot) s

/-- Handler `MainWindow::MenuGameBoyLoadState`. -/
def MenuGameBoyLoadState (s : MainWindow) : MainWindow :=
  emit (.LoadState s.m_iSelectedSlot) s

/-! ## Geometry (lines 218-266 and 426-431)

`W` and `H` stand for the constants `GS_SMS_WIDTH` and `GS_SMS_HEIGHT`, which
are defined in the engine headers; `dw` and `dh` are the width and height of
`qApp->desktop()->size()`. -/

/-- The range of a C++ `int` (32 bits): `INT_MIN ≤ x ≤ INT_MAX`. -/
def inIntRange (x : Int) : Bool :=
  decide (-2147483648 ≤ x) && decide (x ≤ 2147483647)

/-- Handler `MainWindow::ResizeWindow`.  The two products are exact; they are
those of the C++ code when `inIntRange (W * factor)` and
`inIntRange (H * factor)` hold. -/
def ResizeWindow (W H : Int) (factor : Int) (s : MainWindow) : MainWindow :=
  let s1 := { s with m_iScreenSize := factor }
  let s2 := emit (.glSetMaximumSize (W * factor) (H * factor)) s1
  emit (.glSetMinimumSize (W * factor) (H * factor)) s2

/-- Handler `MainWindow::MenuSettingsWindowSize`. -/
def MenuSettingsWindowSize (W H : Int) (action : SizeAction) (s : MainWindow) : MainWindow :=
  let s1 := { s with
    sizeChecked := Function.update (fun _ => false) action true
    m_iScreenSize := action.data }
  ResizeWindow W H s1.m_iScreenSize s1

/-- Handler `MainWindow::MenuSettingsFullscreen`. -/
def MenuSettingsFullscreen (W H : Int) (dw dh : Int) (s : MainWindow) : MainWindow :=
  let s1 :=
    if s.m_bFullscreen then
      let a1 := { s with m_bFullscreen := false }
      let a2 := emit .showNormal a1
      let a3 := { a2 with menubarVisible := true }
      let a4 := ResizeWindow W H a3.m_iScreenSize a3
      emit (.glMove 0 0) a4
    else
      let b1 := { s with m_bFullscreen := true }
      let b2 := emit .setSizePolicyPreferred b1
      let b3 := emit (.setMaximumSize QWIDGETSIZE_MAX QWIDGETSIZE_MAX) b2
      let b4 := emit (.setMinimumSize 0 0) b3
      let b5 := emit .showFullScreen b4
      let b6 := { b5 with menubarVisible := false }
      let w := dw
      let h := dh
      let factor := Int.tdiv h H
      let b7 := emit (.glSetMaximumSize (W * factor) (H * factor)) b6
      let b8 := emit (.glSetMinimumSize (W * factor) (H * factor)) b7
      let move_x := Int.tdiv (w - W * factor) 2
      let move_y := Int.tdiv (h - H * factor) 2
      emit (.glSetGeometry move_x move_y (W * factor) (H * factor)) b8
  let s2 := emit .setFocus s1
  emit .activateWindow s2

/-! ## Keyboard (lines 358-424) -/

/-- What the handlers read from a `QKeyEvent`. -/
structure QKeyEvent where
  key : Int
  isAutoRepeat : Bool
  deriving DecidableEq, Repr

/-- Handler `MainWindow::keyPressEvent`; `GetKey` is `m_pInputSettings->GetKey`. -/
def keyPressEvent (GetKey : Int → Int) (e : QKeyEvent) (s : MainWindow) : MainWindow :=
  if !e.isAutoRepeat then
    let joypad := GS_Joypads.Joypad_1
    match GetKey e.key with
    | 0 => emit (.KeyPressed joypad .Key_Up) s
    | 3 => emit (.KeyPressed joypad .Key_Left) s
    | 1 => emit (.KeyPressed joypad .Key_Right) s
    | 2 => emit (.KeyPressed joypad .Key_Down) s
    | 6 => emit (.KeyPressed joypad .Key_Start) s
    | 5 => emit (.KeyPressed joypad .Key_2) s
    | 4 => emit (.KeyPressed joypad .Key_1) s
    | _ => s
  else s

/-- Handler `MainWindow::keyReleaseEvent`. -/
def keyReleaseEvent (GetKey : Int → Int) (e : QKeyEvent) (s : MainWindow) : MainWindow :=
  if !e.isAutoRepeat then
    let joypad := GS_Joypads.Joypad_1
    match GetKey e.key with
    | 0 => emit (.KeyReleased joypad .Key_Up) s
    | 3 => emit (.KeyReleased joypad .Key_Left) s
    | 1 => emit (.KeyReleased joypad .Key_Right) s
    | 2 => emit (.KeyReleased joypad .Key_Down) s
    | 6 => emit (.KeyReleased joypad .Key_Start) s
    | 5 => emit (.KeyReleased joypad .Key_2) s
    | 4 => emit (.KeyReleased joypad .Key_1) s
    | _ => s
  else s

/-! ## Settings (lines 462-525) -/

/-- The keys of group `Gearsystem` in `gearsystem.ini` that `LoadSettings`
reads; `none` is a missing key. -/
structure QSettings where
  SavestateSlot : Option Int
  ScreenSize : Option Int
  FullScreen : Option Bool
  SaveInROMFolder : Option Bool
  deriving DecidableEq, Repr

/-- Handler `MainWindow::LoadSettings`. -/
def LoadSettings (W H : Int) (dw dh : Int) (settings : QSettings) (s : MainWindow) :
    MainWindow :=
  let s1 := { s with m_iSelectedSlot := settings.SavestateSlot.getD 1 }
  let s2 :=
    match s1.m_iSelectedSlot with
    | 1 => MenuGameBoySelectStateSlot .action1 s1
    | 2 => MenuGameBoySelectStateSlot .action2 s1
    | 3 => MenuGameBoySelectStateSlot .action3 s1
    | 4 => MenuGameBoySelectStateSlot .action4 s1
    | 5 => MenuGameBoySelectStateSlot .action5 s1
    | _ => s1
  let s3 := { s2 with m_iScreenSize := settings.ScreenSize.getD 2 }
  let s4 :=
    match s3.m_iScreenSize with
    | 1 => MenuSettingsWindowSize W H .actionX_1 s3
    | 2 => MenuSettingsWindowSize W H .actionX_2 s3
    | 3 => MenuSettingsWindowSize W H .actionX_3 s3
    | 4 => MenuSettingsWindowSize W H .actionX_4 s3
    | 5 => MenuSettingsWindowSize W H .actionX_5 s3
    | _ => s3
  let s5 := { s4 with m_bFullscreen := !(settings.FullScreen.getD false) }
  let s6 := MenuSettingsFullscreen W H dw dh s5
  let s7 := { s6 with
    actionSave_RAM_in_ROM_folder_checked := settings.SaveInROMFolder.getD false }
  let s8 := emit (.dialogLoadSettings "Input") s7
  let s9 := emit (.dialogLoadSettings "Video") s8
  emit (.dialogLoadSettings "Sound") s9

/-! ## Event sequences -/

/-- The events of the suspension scenarios. -/
inductive Event
  | aboutToShow (m : Menu)
  | aboutToHide (m : Menu)
  | application (t : QEventType)
  deriving DecidableEq, Repr

/-- The handler Qt runs for an event. -/
def Event.handler : Event → MainWindow → MainWindow
  | .aboutToShow m => menuPressed m
  | .aboutToHide m => menuReleased m
  | .application t => eventFilter t

/-- Run the handlers of a sequence of events, in order. -/
def run (es : List Event) (s : MainWindow) : MainWindow :=
  es.foldl (fun t e => e.handler t) s

/-- The window-inactive scenario: the Game menu opens, the application is
deactivated, the Game menu closes, the application is activated again. -/
def inactiveScenario : List Event :=
  [.aboutToShow .Game, .application .ApplicationDeactivate,
   .aboutToHide .Game, .application .ApplicationActivate]

/-! ## Vocabulary of the claims -/

/-- The logical button of a key-binding code, as the specification lists them:
0 Up, 1 Right, 2 Down, 3 Left, 4 Button1, 5 Button2, 6 Start; any other code is
unbound. -/
def logicalButton (code : Int) : Option GS_Keys :=
  if code = 0 then some .Key_Up
  else if code = 1 then some .Key_Right
  else if code = 2 then some .Key_Down
  else if code = 3 then some .Key_Left
  else if code = 4 then some .Key_1
  else if code = 5 then some .Key_2
  else if code = 6 then some .Key_Start
  else none

/-- The engine commands that change engine state from the UI thread. -/
def isEngineCommand : Call → Bool
  | .LoadRom _ _ => true
  | .SaveState _ => true
  | .LoadState _ => true
  | _ => false

/-- Whether every engine command of a list of calls has a `PauseRenderThread`
before it and a `ResumeRenderThread` after it in that list; `paused` tells
whether a pause has already been seen. -/
def bracketedFrom (paused : Bool) : List Call → Bool
  | [] => true
  | c :: rest =>
    (if isEngineCommand c then paused && rest.contains .ResumeRenderThread else true) &&
      bracketedFrom (paused || c == .PauseRenderThread) rest

/-- Whether every engine command in the calls of one handler is bracketed by a
pause and a resume of that same handler. -/
def bracketed (cs : List Call) : Bool := bracketedFrom false cs

/-- Whether some menu flag is set. -/
def anyMenuPressed (s : MainWindow) : Bool :=
  s.m_bMenuPressed 0 || s.m_bMenuPressed 1 || s.m_bMenuPressed 2 || s.m_bMenuPressed 3

/-- Number of `ResumeRenderThread` calls in a list of calls. -/
def resumes (cs : List Call) : Nat := cs.count .ResumeRenderThread

/-- Number of `PauseRenderThread` calls in a list of calls. -/
def pauses (cs : List Call) : Nat := cs.count .PauseRenderThread

/-! ## Basic facts about the call log -/

theorem forall_menu (p : Menu → Prop) :
    (∀ y, p y) ↔ p .Game ∧ p .Settings ∧ p .Debug ∧ p .Help := by
  constructor
  · intro h
    exact ⟨h _, h _, h _, h _⟩
  · rintro ⟨h0, h1, h2, h3⟩ y
    cases y <;> assumption

/-- The `aboutToHide` slot of menu `x` resumes exactly when the flags of the
other three menus are clear. -/
theorem callsOf_menuReleased (x : Menu) (s : MainWindow) :
    callsOf (menuReleased x) s =
      if ∀ y : Menu, y ≠ x → s.m_bMenuPressed y.slot = false
      then [Call.ResumeRenderThread] else [] := by
  cases x <;>
    simp only [menuReleased, MenuGameBoyReleased, MenuSettingsReleased, MenuDebugReleased,
      MenuAboutReleased, callsOf, MenuReleased, forall_menu, Menu.slot] <;>
    cases h0 : s.m_bMenuPressed 0 <;> cases h1 : s.m_bMenuPressed 1 <;>
    cases h2 : s.m_bMenuPressed 2 <;> cases h3 : s.m_bMenuPressed 3 <;>
    simp [h0, h1, h2, h3, emit, Function.update_apply]

/-- The flags after the `aboutToHide` slot of menu `x`: slot `x` cleared, the
others as before. -/
theorem menuReleased_flags (x : Menu) (s : MainWindow) :
    (menuReleased x s).m_bMenuPressed = Function.update s.m_bMenuPressed x.slot false := by
  cases x <;>
    simp only [menuReleased, MenuGameBoyReleased, MenuSettingsReleased, MenuDebugReleased,
      MenuAboutReleased, MenuReleased, Menu.slot] <;>
    split <;> rfl

/-- The flags after the `aboutToShow` slot of menu `x`: slot `x` set, the
others as before. -/
theorem menuPressed_flags (x : Menu) (s : MainWindow) :
    (menuPressed x s).m_bMenuPressed = Function.update s.m_bMenuPressed x.slot true := by
  cases x <;> rfl

theorem callsOf_menuPressed (x : Menu) (s : MainWindow) :
    callsOf (menuPressed x) s = [Call.PauseRenderThread] := by
  cases x <;> simp [menuPressed, MenuGameBoyPressed, MenuSettingsPressed, MenuDebugPressed,
    MenuAboutPressed, callsOf, emit]

theorem slot_injective {x y : Menu} (h : x.slot = y.slot) : x = y := by
  cases x <;> cases y <;> first | rfl | (exact absurd h (by decide))

/-! ## C1 -/

/-- C1: menu suspensions accumulate.  For every window state and any two
distinct menus `x`, `y`, after the pressed handlers of `x` and `y` have run the
released handler of `x` issues no `ResumeRenderThread` call; and in every state
the released handler of `x` issues exactly one `ResumeRenderThread` call when,
after it cleared its own flag, none of the four flags is set, and none
otherwise: it resumes if and only if every other menu flag is false. -/
theorem menu_release_resumes_iff_others_clear (s : MainWindow) (x : Menu) :
    (∀ y : Menu, x ≠ y →
        resumes (callsOf (menuReleased x) (menuPressed y (menuPressed x s))) = 0 ∧
        resumes (callsOf (menuReleased x) (menuPressed x (menuPressed y s))) = 0) ∧
    (resumes (callsOf (menuReleased x) s) = 1 ↔
        ∀ i : Fin 4, (menuReleased x s).m_bMenuPressed i = false) ∧
    (resumes (callsOf (menuReleased x) s) = 1 ↔
        ∀ y : Menu, y ≠ x → s.m_bMenuPressed y.slot = false) ∧
    (resumes (callsOf (menuReleased x) s) = 0 ↔
        ∃ y : Menu, y ≠ x ∧ s.m_bMenuPressed y.slot = true) := by
  have others : (∀ i : Fin 4, (menuReleased x s).m_bMenuPressed i = false) ↔
      ∀ y : Menu, y ≠ x → s.m_bMenuPressed y.slot = false := by
    rw [menuReleased_flags]
    constructor
    · intro h y hy
      have := h y.slot
      rwa [Function.update_noteq (fun e => hy (slot_injective e))] at this
    · intro h i
      by_cases hi : i = x.slot
      · rw [hi, Function.update_same]
      · rw [Function.update_noteq hi]
        have key : ∀ j : Fin 4, ∃ y : Menu, y.slot = j := by
          intro j
          fin_cases j
          · exact ⟨.Game, rfl⟩
          · exact ⟨.Settings, rfl⟩
          · exact ⟨.Debug, rfl⟩
          · exact ⟨.Help, rfl⟩
        obtain ⟨y, rfl⟩ := key i
        exact h y (fun e => hi (by rw [e]))
  refine ⟨?_, ?_, ?_, ?_⟩
  · intro y hxy
    constructor
    · rw [callsOf_menuReleased, if_neg]
      · rfl
      · intro h
        have hy := h y (Ne.symm hxy)
        rw [menuPressed_flags, Function.update_same] at hy
        exact Bool.noConfusion hy
    · rw [callsOf_menuReleased, if_neg]
      · rfl
      · intro h
        have hy := h y (Ne.symm hxy)
        rw [menuPressed_flags, menuPressed_flags,
          Function.update_noteq (fun e => hxy (slot_injective e).symm),
          Function.update_same] at hy
        exact Bool.noConfusion hy
  · rw [others, callsOf_menuReleased]
    split <;> simp_all [resumes]
  · rw [callsOf_menuReleased]
    split <;> simp_all [resumes]
  · rw [callsOf_menuReleased]
    split
    · rename_i h
      simp only [resumes, List.count_cons_self, List.count_nil]
      constructor
      · intro h0
        exact absurd h0 (by decide)
      · rintro ⟨y, hy, hset⟩
        rw [h y hy] at hset
        exact Bool.noConfusion hset
    · rename_i h
      simp only [resumes, List.count_nil, true_iff]
      by_contra hne
      apply h
      intro y hy
      by_contra hset
      exact hne ⟨y, hy, by simpa using hset⟩

/-- C1 at a concrete input: from the constructor state, with the Game and
Settings menus opened, closing Game issues no resume. -/
theorem menu_release_resumes_iff_others_clear_witness :
    Menu.Game ≠ Menu.Settings ∧
    resumes (callsOf (menuReleased .Game)
      (menuPressed .Settings (menuPressed .Game MainWindow.start))) = 0 :=
  ⟨by decide,
   ((menu_release_resumes_iff_others_clear MainWindow.start .Game).1 .Settings
      (by decide)).1⟩

/-! ## C2 -/

/-- What `menuReleased` logs is appended to the calls made before. -/
theorem menuReleased_calls (x : Menu) (s : MainWindow) :
    (menuReleased x s).calls = s.calls ++ callsOf (menuReleased x) s := by
  cases x <;>
    simp only [menuReleased, MenuGameBoyReleased, MenuSettingsReleased, MenuDebugReleased,
      MenuAboutReleased, MenuReleased, callsOf] <;>
    split <;> simp [emit]

/-- The calls of two release handlers run one after the other. -/
theorem callsOf_menuReleased_twice (x : Menu) (s : MainWindow) :
    callsOf (fun t => menuReleased x (menuReleased x t)) s =
      callsOf (menuReleased x) s ++ callsOf (menuReleased x) (menuReleased x s) := by
  have h1 := menuReleased_calls x s
  have h2 := menuReleased_calls x (menuReleased x s)
  simp only [callsOf] at h1 h2 ⊢
  rw [h2, h1]
  simp

/-- Refutation of C2 as stated: in the window-inactive scenario run from the
constructor state, the Game-menu-hide event itself issues a
`ResumeRenderThread` call although the application is still deactivated, and
two `ResumeRenderThread` calls are issued in total, not one. -/
theorem inactive_scenario_counterexample :
    callsOf (Event.handler (.aboutToHide .Game))
        (run [.aboutToShow .Game, .application .ApplicationDeactivate] MainWindow.start)
      = [Call.ResumeRenderThread] ∧
    resumes (callsOf (run inactiveScenario) MainWindow.start) = 2 := by
  decide

/-- C2 (amended): from any state in which no menu flag is set, in the sequence
Game menu about-to-show, application deactivated, Game menu about-to-hide,
application activated, the Game-menu-hide event issues one
`ResumeRenderThread` call (no menu flag is set any more; the window being
inactive is not recorded anywhere), the application-activated event issues one
more, and the whole sequence issues the calls pause, pause, resume, resume: two
resumes in total, the last one by the final event. -/
theorem inactive_scenario_calls (s : MainWindow) (h : anyMenuPressed s = false) :
    callsOf (Event.handler (.aboutToHide .Game))
        (run [.aboutToShow .Game, .application .ApplicationDeactivate] s)
      = [Call.ResumeRenderThread] ∧
    callsOf (Event.handler (.application .ApplicationActivate))
        (run [.aboutToShow .Game, .application .ApplicationDeactivate,
              .aboutToHide .Game] s)
      = [Call.ResumeRenderThread] ∧
    callsOf (run inactiveScenario) s =
      [Call.PauseRenderThread, Call.PauseRenderThread,
       Call.ResumeRenderThread, Call.ResumeRenderThread] ∧
    resumes (callsOf (run inactiveScenario) s) = 2 := by
  simp only [anyMenuPressed, Bool.or_eq_false_iff] at h
  obtain ⟨⟨⟨h0, h1⟩, h2⟩, h3⟩ := h
  simp [run, inactiveScenario, Event.handler, menuPressed, menuReleased, eventFilter,
    MenuGameBoyPressed, MenuGameBoyReleased, MenuReleased, callsOf, emit, resumes,
    Function.update_apply, h1, h2, h3]

/-- C2 (amended) at the constructor state. -/
theorem inactive_scenario_calls_witness :
    anyMenuPressed MainWindow.start = false ∧
    resumes (callsOf (run inactiveScenario) MainWindow.start) = 2 :=
  ⟨by decide, (inactive_scenario_calls MainWindow.start (by decide)).2.2.2⟩

/-! ## C5 -/

/-- Refutation of C5 as stated: with the Game menu already open (a suspend
reason is active), the Settings about-to-show event, a second Game
about-to-show event and an application-deactivate event each still issue a
`PauseRenderThread` call. -/
theorem pause_when_already_suspended_counterexample :
    anyMenuPressed (menuPressed .Game MainWindow.start) = true ∧
    pauses (callsOf (menuPressed .Settings) (menuPressed .Game MainWindow.start)) = 1 ∧
    pauses (callsOf (menuPressed .Game) (menuPressed .Game MainWindow.start)) = 1 ∧
    pauses (callsOf (eventFilter .ApplicationDeactivate)
      (menuPressed .Game MainWindow.start)) = 1 := by
  decide

/-- C5 (amended): in every state, whether or not a suspend reason is already
active, a menu about-to-show event and an application-deactivate event each
issue exactly one `PauseRenderThread` call and no other call. -/
theorem add_reason_always_pauses (s : MainWindow) (x : Menu) :
    callsOf (menuPressed x) s = [Call.PauseRenderThread] ∧
    pauses (callsOf (menuPressed x) s) = 1 ∧
    callsOf (eventFilter .ApplicationDeactivate) s = [Call.PauseRenderThread] ∧
    pauses (callsOf (eventFilter .ApplicationDeactivate) s) = 1 := by
  have h1 := callsOf_menuPressed x s
  have h2 : callsOf (eventFilter .ApplicationDeactivate) s = [Call.PauseRenderThread] := by
    simp [eventFilter, callsOf, emit]
  refine ⟨h1, ?_, h2, ?_⟩
  · rw [h1]; rfl
  · rw [h2]; rfl

/-! ## C6 -/

/-- Refutation of C6 as stated: from the constructor state (no flag set), the
Game about-to-hide event run twice in a row issues two `ResumeRenderThread`
calls, and so does the application-activate event run twice in a row. -/
theorem release_twice_counterexample :
    resumes (callsOf (fun t => menuReleased .Game (menuReleased .Game t))
      MainWindow.start) = 2 ∧
    resumes (callsOf (fun t => eventFilter .ApplicationActivate
      (eventFilter .ApplicationActivate t)) MainWindow.start) = 2 := by
  decide

/-- C6 (amended): a release event run a second time issues the same calls as
the first time.  For a menu about-to-hide event run twice in a row the total
number of `ResumeRenderThread` calls is twice that of a single run, where a
single run issues at most one: the total is two when the flags of the other
three menus are clear and zero otherwise.  The application-activate event run
twice in a row issues two `ResumeRenderThread` calls. -/
theorem release_twice_repeats (s : MainWindow) (x : Menu) :
    callsOf (menuReleased x) (menuReleased x s) = callsOf (menuReleased x) s ∧
    resumes (callsOf (menuReleased x) s) ≤ 1 ∧
    resumes (callsOf (fun t => menuReleased x (menuReleased x t)) s) =
      2 * resumes (callsOf (menuReleased x) s) ∧
    resumes (callsOf (fun t => menuReleased x (menuReleased x t)) s) =
      (if ∀ y : Menu, y ≠ x → s.m_bMenuPressed y.slot = false then 2 else 0) ∧
    callsOf (fun t => eventFilter .ApplicationActivate (eventFilter .ApplicationActivate t)) s
      = [Call.ResumeRenderThread, Call.ResumeRenderThread] := by
  have same : callsOf (menuReleased x) (menuReleased x s) = callsOf (menuReleased x) s := by
    rw [callsOf_menuReleased, callsOf_menuReleased, menuReleased_flags]
    have : ∀ y : Menu, y ≠ x →
        Function.update s.m_bMenuPressed x.slot false y.slot = s.m_bMenuPressed y.slot := by
      intro y hy
      exact Function.update_noteq (fun e => hy (slot_injective e)) _ _
    have e : (∀ y : Menu, y ≠ x →
          Function.update s.m_bMenuPressed x.slot false y.slot = false) ↔
        (∀ y : Menu, y ≠ x → s.m_bMenuPressed y.slot = false) := by
      constructor
      · intro h y hy
        rw [← this y hy]
        exact h y hy
      · intro h y hy
        rw [this y hy]
        exact h y hy
    simp only [e]
  refine ⟨same, ?_, ?_, ?_, ?_⟩
  · rw [callsOf_menuReleased]
    split <;> simp [resumes]
  · rw [callsOf_menuReleased_twice, same]
    simp [resumes, two_mul]
  · rw [callsOf_menuReleased_twice, same, callsOf_menuReleased]
    split <;> simp [resumes]
  · simp [eventFilter, callsOf, emit]

/-! ## C3 and C4 -/

theorem callsOf_MenuGameBoyLoadROM (filename : Option String) (s : MainWindow) :
    callsOf (MenuGameBoyLoadROM filename) s =
      match filename with
      | some path =>
        [Call.PauseRenderThread, Call.LoadRom path s.actionSave_RAM_in_ROM_folder_checked,
         Call.setFocus, Call.activateWindow, Call.ResumeRenderThread]
      | none =>
        [Call.PauseRenderThread, Call.setFocus, Call.activateWindow,
         Call.ResumeRenderThread] := by
  cases filename <;> simp [MenuGameBoyLoadROM, callsOf, emit]

theorem callsOf_InitalGameBoyLoadROM (path : String) (s : MainWindow) :
    callsOf (InitalGameBoyLoadROM (some path)) s =
      [Call.PauseRenderThread, Call.LoadRom path s.actionSave_RAM_in_ROM_folder_checked,
       Call.setFocus, Call.activateWindow, Call.ResumeRenderThread] := by
  simp [InitalGameBoyLoadROM, callsOf, emit]

/-- Refutation of C3 as stated: with the Game menu flag set, loading a ROM
through the menu (a file chosen, or the dialog cancelled) or through
`InitalGameBoyLoadROM` with a valid path issues a `ResumeRenderThread` call,
and the flag is still set afterwards. -/
theorem load_rom_resumes_past_open_menu_counterexample :
    anyMenuPressed (menuPressed .Game MainWindow.start) = true ∧
    resumes (callsOf (MenuGameBoyLoadROM (some "game.sms"))
      (menuPressed .Game MainWindow.start)) = 1 ∧
    resumes (callsOf (MenuGameBoyLoadROM none) (menuPressed .Game MainWindow.start)) = 1 ∧
    resumes (callsOf (InitalGameBoyLoadROM (some "game.sms"))
      (menuPressed .Game MainWindow.start)) = 1 ∧
    anyMenuPressed (MenuGameBoyLoadROM (some "game.sms")
      (menuPressed .Game MainWindow.start)) = true := by
  refine ⟨by decide, ?_, ?_, ?_, by decide⟩
  · rw [callsOf_MenuGameBoyLoadROM]; decide
  · rw [callsOf_MenuGameBoyLoadROM]; decide
  · rw [callsOf_InitalGameBoyLoadROM]; decide

/-- C3 (amended): the ROM-load operation does not look at the menu flags.  In
every state, whether or not a menu flag is set, `MenuGameBoyLoadROM` and
`InitalGameBoyLoadROM` with a valid path issue exactly one
`ResumeRenderThread` call, as their last call, and exactly one
`PauseRenderThread` call, as their first; they leave `m_bMenuPressed` as it
was. -/
theorem load_rom_always_resumes (s : MainWindow) (filename : Option String) (path : String) :
    resumes (callsOf (MenuGameBoyLoadROM filename) s) = 1 ∧
    pauses (callsOf (MenuGameBoyLoadROM filename) s) = 1 ∧
    (callsOf (MenuGameBoyLoadROM filename) s).head? = some Call.PauseRenderThread ∧
    (callsOf (MenuGameBoyLoadROM filename) s).getLast? = some Call.ResumeRenderThread ∧
    (MenuGameBoyLoadROM filename s).m_bMenuPressed = s.m_bMenuPressed ∧
    resumes (callsOf (InitalGameBoyLoadROM (some path)) s) = 1 ∧
    pauses (callsOf (InitalGameBoyLoadROM (some path)) s) = 1 ∧
    (callsOf (InitalGameBoyLoadROM (some path)) s).head? = some Call.PauseRenderThread ∧
    (callsOf (InitalGameBoyLoadROM (some path)) s).getLast? = some Call.ResumeRenderThread ∧
    (InitalGameBoyLoadROM (some path) s).m_bMenuPressed = s.m_bMenuPressed := by
  rw [callsOf_MenuGameBoyLoadROM, callsOf_InitalGameBoyLoadROM]
  refine ⟨?_, ?_, ?_, ?_, ?_, ?_, ?_, ?_, ?_, ?_⟩
  · cases filename <;> simp [resumes]
  · cases filename <;> simp [pauses]
  · cases filename <;> rfl
  · cases filename <;> rfl
  · cases filename <;> rfl
  · simp [resumes]
  · simp [pauses]
  · rfl
  · rfl
  · rfl

/-- Refutation of C4 as stated: in the constructor state the save-state and
load-state handlers make the single engine call `SaveState(1)`, respectively
`LoadState(1)`, with no `PauseRenderThread` before it and no
`ResumeRenderThread` after it. -/
theorem state_commands_not_bracketed_counterexample :
    callsOf MenuGameBoySaveState MainWindow.start = [Call.SaveState 1] ∧
    bracketed (callsOf MenuGameBoySaveState MainWindow.start) = false ∧
    callsOf MenuGameBoyLoadState MainWindow.start = [Call.LoadState 1] ∧
    bracketed (callsOf MenuGameBoyLoadState MainWindow.start) = false := by
  decide

/-- C4 (amended): the ROM-load handlers bracket the engine call: the calls of
`MenuGameBoyLoadROM` (a file chosen) and of `InitalGameBoyLoadROM` (valid path)
are pause, `LoadRom`, `setFocus`, `activateWindow`, resume, so `LoadRom` is
preceded by a `PauseRenderThread` and followed by a `ResumeRenderThread` of the
same handler.  `MenuGameBoySaveState` and `MenuGameBoyLoadState` make exactly
one call, the engine call `SaveState(m_iSelectedSlot)` respectively
`LoadState(m_iSelectedSlot)`, and no render-thread call. -/
theorem rom_load_bracketed_state_commands_bare (s : MainWindow) (path : String) :
    callsOf (MenuGameBoyLoadROM (some path)) s =
      [Call.PauseRenderThread, Call.LoadRom path s.actionSave_RAM_in_ROM_folder_checked,
       Call.setFocus, Call.activateWindow, Call.ResumeRenderThread] ∧
    bracketed (callsOf (MenuGameBoyLoadROM (some path)) s) = true ∧
    callsOf (InitalGameBoyLoadROM (some path)) s =
      [Call.PauseRenderThread, Call.LoadRom path s.actionSave_RAM_in_ROM_folder_checked,
       Call.setFocus, Call.activateWindow, Call.ResumeRenderThread] ∧
    bracketed (callsOf (InitalGameBoyLoadROM (some path)) s) = true ∧
    callsOf MenuGameBoySaveState s = [Call.SaveState s.m_iSelectedSlot] ∧
    callsOf MenuGameBoyLoadState s = [Call.LoadState s.m_iSelectedSlot] := by
  rw [callsOf_MenuGameBoyLoadROM, callsOf_InitalGameBoyLoadROM]
  refine ⟨rfl, ?_, rfl, ?_, ?_, ?_⟩
  · simp [bracketed, bracketedFrom, isEngineCommand]
  · simp [bracketed, bracketedFrom, isEngineCommand]
  · simp [MenuGameBoySaveState, callsOf, emit]
  · simp [MenuGameBoyLoadState, callsOf, emit]

/-! ## C7 -/

theorem callsOf_keyPressEvent (GetKey : Int → Int) (e : QKeyEvent) (s : MainWindow) :
    callsOf (keyPressEvent GetKey e) s =
      if e.isAutoRepeat then []
      else match logicalButton (GetKey e.key) with
        | some b => [Call.KeyPressed .Joypad_1 b]
        | none => [] := by
  unfold keyPressEvent
  cases e.isAutoRepeat
  · simp only [Bool.not_false, if_true]
    split <;> simp_all [logicalButton, callsOf, emit]
  · simp [callsOf]

theorem callsOf_keyReleaseEvent (GetKey : Int → Int) (e : QKeyEvent) (s : MainWindow) :
    callsOf (keyReleaseEvent GetKey e) s =
      if e.isAutoRepeat then []
      else match logicalButton (GetKey e.key) with
        | some b => [Call.KeyReleased .Joypad_1 b]
        | none => [] := by
  unfold keyReleaseEvent
  cases e.isAutoRepeat
  · simp only [Bool.not_false, if_true]
    split <;> simp_all [logicalButton, callsOf, emit]
  · simp [callsOf]

/-- C7: key handling.  For every key event and key-binding lookup,
`keyPressEvent` makes no engine call when the event is an auto-repeat or the
lookup result is not one of the seven bound codes, and otherwise exactly the
call `KeyPressed(Joypad_1, b)` with `b` the logical button of the lookup code;
`keyReleaseEvent` does the same with `KeyReleased(Joypad_1, b)`.  In particular,
for a bound key, an auto-repeat key-down makes no call and the following
non-repeat key-up makes its `KeyReleased` call. -/
theorem key_events_map_to_buttons (GetKey : Int → Int) (e : QKeyEvent) (s : MainWindow) :
    (callsOf (keyPressEvent GetKey e) s =
      if e.isAutoRepeat then []
      else match logicalButton (GetKey e.key) with
        | some b => [Call.KeyPressed .Joypad_1 b]
        | none => []) ∧
    (callsOf (keyReleaseEvent GetKey e) s =
      if e.isAutoRepeat then []
      else match logicalButton (GetKey e.key) with
        | some b => [Call.KeyReleased .Joypad_1 b]
        | none => []) ∧
    (∀ b, logicalButton (GetKey e.key) = some b →
      callsOf (keyPressEvent GetKey { key := e.key, isAutoRepeat := true }) s = [] ∧
      callsOf (keyReleaseEvent GetKey { key := e.key, isAutoRepeat := false })
          (keyPressEvent GetKey { key := e.key, isAutoRepeat := true } s)
        = [Call.KeyReleased .Joypad_1 b]) := by
  refine ⟨callsOf_keyPressEvent _ _ _, callsOf_keyReleaseEvent _ _ _, ?_⟩
  intro b hb
  rw [callsOf_keyPressEvent, callsOf_keyReleaseEvent]
  simp [hb]

/-- C7 at a concrete input: with key 65 bound to code 4, an auto-repeat
key-down makes no call and the key-up releases Button1. -/
theorem key_events_map_to_buttons_witness :
    logicalButton ((fun k => if k = 65 then 4 else 99) 65) = some GS_Keys.Key_1 ∧
    callsOf (keyPressEvent (fun k => if k = 65 then 4 else 99)
      { key := 65, isAutoRepeat := true }) MainWindow.start = [] ∧
    callsOf (keyReleaseEvent (fun k => if k = 65 then 4 else 99)
        { key := 65, isAutoRepeat := false })
        (keyPressEvent (fun k => if k = 65 then 4 else 99)
          { key := 65, isAutoRepeat := true } MainWindow.start)
      = [Call.KeyReleased .Joypad_1 .Key_1] :=
  ⟨by decide,
   (key_events_map_to_buttons (fun k => if k = 65 then 4 else 99)
     { key := 65, isAutoRepeat := false } MainWindow.start).2.2 .Key_1 (by decide)⟩

/-! ## C8 and C9 -/

theorem callsOf_ResizeWindow (W H factor : Int) (s : MainWindow) :
    callsOf (ResizeWindow W H factor) s =
      [Call.glSetMaximumSize (W * factor) (H * factor),
       Call.glSetMinimumSize (W * factor) (H * factor)] := by
  simp [ResizeWindow, callsOf, emit]

theorem callsOf_MenuSettingsWindowSize (W H : Int) (a : SizeAction) (s : MainWindow) :
    callsOf (MenuSettingsWindowSize W H a) s =
      [Call.glSetMaximumSize (W * a.data) (H * a.data),
       Call.glSetMinimumSize (W * a.data) (H * a.data)] := by
  simp [MenuSettingsWindowSize, ResizeWindow, callsOf, emit]

/-- Entering fullscreen, with the C++ divisions as they are. -/
theorem callsOf_enter_fullscreen (W H dw dh : Int) (s : MainWindow)
    (hfs : s.m_bFullscreen = false) :
    callsOf (MenuSettingsFullscreen W H dw dh) s =
      [Call.setSizePolicyPreferred,
       Call.setMaximumSize QWIDGETSIZE_MAX QWIDGETSIZE_MAX,
       Call.setMinimumSize 0 0,
       Call.showFullScreen,
       Call.glSetMaximumSize (W * Int.tdiv dh H) (H * Int.tdiv dh H),
       Call.glSetMinimumSize (W * Int.tdiv dh H) (H * Int.tdiv dh H),
       Call.glSetGeometry (Int.tdiv (dw - W * Int.tdiv dh H) 2)
         (Int.tdiv (dh - H * Int.tdiv dh H) 2) (W * Int.tdiv dh H) (H * Int.tdiv dh H),
       Call.setFocus,
       Call.activateWindow] := by
  simp [MenuSettingsFullscreen, hfs, callsOf, emit]

/-- Leaving fullscreen. -/
theorem callsOf_exit_fullscreen (W H dw dh : Int) (s : MainWindow)
    (hfs : s.m_bFullscreen = true) :
    callsOf (MenuSettingsFullscreen W H dw dh) s =
      [Call.showNormal,
       Call.glSetMaximumSize (W * s.m_iScreenSize) (H * s.m_iScreenSize),
       Call.glSetMinimumSize (W * s.m_iScreenSize) (H * s.m_iScreenSize),
       Call.glMove 0 0,
       Call.setFocus,
       Call.activateWindow] := by
  simp [MenuSettingsFullscreen, ResizeWindow, hfs, callsOf, emit]

/-- For a non-negative height and a positive native height the C++ quotient is
the floor of the rational quotient. -/
theorem tdiv_eq_floor (dh H : Int) (hH : 0 < H) (hdh : 0 ≤ dh) :
    Int.tdiv dh H = ⌊(dh : ℚ) / (H : ℚ)⌋ := by
  rw [Int.tdiv_eq_ediv hdh (le_of_lt hH)]
  obtain ⟨n, rfl⟩ := Int.eq_ofNat_of_zero_le (le_of_lt hH)
  exact (Rat.floor_intCast_div_natCast dh n).symm

/-- C8: fullscreen geometry.  For every desktop size `dw` by `dh` (a height is
not negative) and native resolution `W` by `H` with `H > 0`, entering
fullscreen computes `scaleFactor = floor(dh / H)`, sets the maximum and the
minimum size of the render surface to `W*scaleFactor` by `H*scaleFactor`, and
places it at `((dw - W*scaleFactor)/2, (dh - H*scaleFactor)/2)` with that same
size, the divisions by two being those of C++ `int`; the vertical offset is
never negative.  It sets `m_bFullscreen` and leaves `m_iScreenSize` unchanged.
With `dh = 1080`, `H = 144`, `W = 160` the scale factor is 7 and the size 1120
by 1008. -/
theorem fullscreen_geometry (W H dw dh : Int) (s : MainWindow)
    (hH : 0 < H) (hdh : 0 ≤ dh) (hfs : s.m_bFullscreen = false) :
    callsOf (MenuSettingsFullscreen W H dw dh) s =
      [Call.setSizePolicyPreferred,
       Call.setMaximumSize QWIDGETSIZE_MAX QWIDGETSIZE_MAX,
       Call.setMinimumSize 0 0,
       Call.showFullScreen,
       Call.glSetMaximumSize (W * ⌊(dh : ℚ) / (H : ℚ)⌋) (H * ⌊(dh : ℚ) / (H : ℚ)⌋),
       Call.glSetMinimumSize (W * ⌊(dh : ℚ) / (H : ℚ)⌋) (H * ⌊(dh : ℚ) / (H : ℚ)⌋),
       Call.glSetGeometry
         (Int.tdiv (dw - W * ⌊(dh : ℚ) / (H : ℚ)⌋) 2)
         (Int.tdiv (dh - H * ⌊(dh : ℚ) / (H : ℚ)⌋) 2)
         (W * ⌊(dh : ℚ) / (H : ℚ)⌋) (H * ⌊(dh : ℚ) / (H : ℚ)⌋),
       Call.setFocus,
       Call.activateWindow] ∧
    0 ≤ Int.tdiv (dh - H * ⌊(dh : ℚ) / (H : ℚ)⌋) 2 ∧
    (MenuSettingsFullscreen W H dw dh s).m_bFullscreen = true ∧
    (MenuSettingsFullscreen W H dw dh s).m_iScreenSize = s.m_iScreenSize ∧
    (dh = 1080 → H = 144 → W = 160 →
      ⌊(dh : ℚ) / (H : ℚ)⌋ = 7 ∧
      W * ⌊(dh : ℚ) / (H : ℚ)⌋ = 1120 ∧ H * ⌊(dh : ℚ) / (H : ℚ)⌋ = 1008) := by
  rw [← tdiv_eq_floor dh H hH hdh]
  refine ⟨callsOf_enter_fullscreen W H dw dh s hfs, ?_, ?_, ?_, ?_⟩
  · apply Int.tdiv_nonneg _ (by decide)
    rw [Int.tdiv_eq_ediv hdh (le_of_lt hH)]
    have := @Int.mul_ediv_self_le dh H (ne_of_gt hH)
    omega
  · simp [MenuSettingsFullscreen, hfs, emit]
  · simp [MenuSettingsFullscreen, hfs, emit]
  · rintro rfl rfl rfl
    decide

/-- C8 on a 1920 by 1080 desktop with native resolution 160 by 144: the surface
is 1120 by 1008 at offset (400, 36). -/
theorem fullscreen_geometry_witness :
    (0 : Int) < 144 ∧ (0 : Int) ≤ 1080 ∧ MainWindow.start.m_bFullscreen = false ∧
    callsOf (MenuSettingsFullscreen 160 144 1920 1080) MainWindow.start =
      [Call.setSizePolicyPreferred,
       Call.setMaximumSize QWIDGETSIZE_MAX QWIDGETSIZE_MAX,
       Call.setMinimumSize 0 0,
       Call.showFullScreen,
       Call.glSetMaximumSize 1120 1008,
       Call.glSetMinimumSize 1120 1008,
       Call.glSetGeometry 400 36 1120 1008,
       Call.setFocus,
       Call.activateWindow] := by
  refine ⟨by decide, by decide, rfl, ?_⟩
  have h := (fullscreen_geometry 160 144 1920 1080 MainWindow.start
    (by decide) (by decide) rfl).1
  have k := ((fullscreen_geometry 160 144 1920 1080 MainWindow.start
    (by decide) (by decide) rfl).2.2.2.2 rfl rfl rfl).1
  rw [h]
  push_cast at k ⊢
  rw [k]
  decide

/-- C9: windowed zoom geometry.  For every zoom factor `f` in 1..5 there is a
zoom action carrying `f`, and `MenuSettingsWindowSize` with an action carrying
`f` (as `ResizeWindow(f)` itself) sets the maximum and the minimum size of the
render surface to `W*f` by `H*f` and records `m_iScreenSize = f`; for `f = 3`
and native resolution 160 by 144 that size is 480 by 432.  Leaving fullscreen
with `m_iScreenSize = f` sets the same two sizes again and keeps
`m_iScreenSize`. -/
theorem windowed_zoom_geometry (W H f : Int) (h1 : 1 ≤ f) (h5 : f ≤ 5) :
    (∃ a : SizeAction, a.data = f) ∧
    (∀ (a : SizeAction) (s : MainWindow), a.data = f →
      callsOf (MenuSettingsWindowSize W H a) s =
        [Call.glSetMaximumSize (W * f) (H * f), Call.glSetMinimumSize (W * f) (H * f)] ∧
      (MenuSettingsWindowSize W H a s).m_iScreenSize = f) ∧
    (∀ s : MainWindow,
      callsOf (ResizeWindow W H f) s =
        [Call.glSetMaximumSize (W * f) (H * f), Call.glSetMinimumSize (W * f) (H * f)] ∧
      (ResizeWindow W H f s).m_iScreenSize = f) ∧
    (∀ (dw dh : Int) (s : MainWindow), s.m_bFullscreen = true → s.m_iScreenSize = f →
      callsOf (MenuSettingsFullscreen W H dw dh) s =
        [Call.showNormal,
         Call.glSetMaximumSize (W * f) (H * f), Call.glSetMinimumSize (W * f) (H * f),
         Call.glMove 0 0, Call.setFocus, Call.activateWindow] ∧
      (MenuSettingsFullscreen W H dw dh s).m_bFullscreen = false ∧
      (MenuSettingsFullscreen W H dw dh s).m_iScreenSize = f) ∧
    (f = 3 → W = 160 → H = 144 → W * f = 480 ∧ H * f = 432) := by
  refine ⟨?_, ?_, ?_, ?_, ?_⟩
  · have hf : f = 1 ∨ f = 2 ∨ f = 3 ∨ f = 4 ∨ f = 5 := by omega
    rcases hf with rfl | rfl | rfl | rfl | rfl
    · exact ⟨.actionX_1, rfl⟩
    · exact ⟨.actionX_2, rfl⟩
    · exact ⟨.actionX_3, rfl⟩
    · exact ⟨.actionX_4, rfl⟩
    · exact ⟨.actionX_5, rfl⟩
  · intro a s ha
    rw [callsOf_MenuSettingsWindowSize, ha]
    exact ⟨rfl, by simp [MenuSettingsWindowSize, ResizeWindow, emit, ha]⟩
  · intro s
    exact ⟨callsOf_ResizeWindow W H f s, by simp [ResizeWindow, emit]⟩
  · intro dw dh s hfs hf
    rw [callsOf_exit_fullscreen W H dw dh s hfs, hf]
    refine ⟨rfl, ?_, ?_⟩
    · simp [MenuSettingsFullscreen, ResizeWindow, hfs, emit]
    · simp [MenuSettingsFullscreen, ResizeWindow, hfs, emit, hf]
  · rintro rfl rfl rfl
    decide

/-- C9 at zoom factor 3 with native resolution 160 by 144: the action
`actionX_3` pins the surface to 480 by 432. -/
theorem windowed_zoom_geometry_witness :
    (1 : Int) ≤ 3 ∧ (3 : Int) ≤ 5 ∧ SizeAction.actionX_3.data = 3 ∧
    callsOf (MenuSettingsWindowSize 160 144 .actionX_3) MainWindow.start =
      [Call.glSetMaximumSize (160 * 3) (144 * 3), Call.glSetMinimumSize (160 * 3) (144 * 3)] ∧
    (MenuSettingsWindowSize 160 144 .actionX_3 MainWindow.start).m_iScreenSize = 3 ∧
    (160 : Int) * 3 = 480 ∧ (144 : Int) * 3 = 432 :=
  ⟨by decide, by decide, rfl,
   ((windowed_zoom_geometry 160 144 3 (by decide) (by decide)).2.1
      .actionX_3 MainWindow.start rfl).1,
   ((windowed_zoom_geometry 160 144 3 (by decide) (by decide)).2.1
      .actionX_3 MainWindow.start rfl).2,
   by decide, by decide⟩

/-! ## C10 -/

/-- `LoadSettings` keeps the persisted slot as it is. -/
theorem LoadSettings_slot (W H dw dh : Int) (st : QSettings) (s : MainWindow) :
    (LoadSettings W H dw dh st s).m_iSelectedSlot = st.SavestateSlot.getD 1 := by
  unfold LoadSettings
  simp only []
  split <;> split <;> cases st.FullScreen.getD false <;>
    simp_all [MenuSettingsFullscreen, MenuSettingsWindowSize, ResizeWindow,
      MenuGameBoySelectStateSlot, emit, SlotAction.data]

/-- `LoadSettings` keeps the persisted zoom factor as it is. -/
theorem LoadSettings_screenSize (W H dw dh : Int) (st : QSettings) (s : MainWindow) :
    (LoadSettings W H dw dh st s).m_iScreenSize = st.ScreenSize.getD 2 := by
  unfold LoadSettings
  simp only []
  split <;> split <;> cases st.FullScreen.getD false <;>
    simp_all [MenuSettingsFullscreen, MenuSettingsWindowSize, ResizeWindow,
      MenuGameBoySelectStateSlot, emit, SizeAction.data]

/-- The calls of `LoadSettings` when the persisted mode is windowed. -/
theorem callsOf_LoadSettings_windowed (W H dw dh : Int) (st : QSettings) (s : MainWindow)
    (hw : st.FullScreen.getD false = false) :
    callsOf (LoadSettings W H dw dh st) s =
      (if 1 ≤ st.ScreenSize.getD 2 ∧ st.ScreenSize.getD 2 ≤ 5 then
        [Call.glSetMaximumSize (W * st.ScreenSize.getD 2) (H * st.ScreenSize.getD 2),
         Call.glSetMinimumSize (W * st.ScreenSize.getD 2) (H * st.ScreenSize.getD 2)]
       else []) ++
      [Call.showNormal,
       Call.glSetMaximumSize (W * st.ScreenSize.getD 2) (H * st.ScreenSize.getD 2),
       Call.glSetMinimumSize (W * st.ScreenSize.getD 2) (H * st.ScreenSize.getD 2),
       Call.glMove 0 0, Call.setFocus, Call.activateWindow,
       Call.dialogLoadSettings "Input", Call.dialogLoadSettings "Video",
       Call.dialogLoadSettings "Sound"] := by
  unfold LoadSettings callsOf
  simp only []
  generalize st.ScreenSize.getD 2 = f
  split <;> split <;>
    simp_all [MenuSettingsFullscreen, MenuSettingsWindowSize, ResizeWindow,
      MenuGameBoySelectStateSlot, emit, SizeAction.data]
  all_goals omega

/-- Refutation of C10 as stated: with the persisted record SavestateSlot = 7,
ScreenSize = 9, FullScreen = false, `LoadSettings` leaves `m_iSelectedSlot = 7`
and `m_iScreenSize = 9`, applies the surface size 1440 by 1296 (nine times 160
by 144) in windowed mode, and a following save-state or load-state call
targets slot 7. -/
theorem load_settings_out_of_range_counterexample :
    (LoadSettings 160 144 1920 1080
      { SavestateSlot := some 7, ScreenSize := some 9, FullScreen := some false,
        SaveInROMFolder := none } MainWindow.start).m_iSelectedSlot = 7 ∧
    (LoadSettings 160 144 1920 1080
      { SavestateSlot := some 7, ScreenSize := some 9, FullScreen := some false,
        SaveInROMFolder := none } MainWindow.start).m_iScreenSize = 9 ∧
    (LoadSettings 160 144 1920 1080
      { SavestateSlot := some 7, ScreenSize := some 9, FullScreen := some false,
        SaveInROMFolder := none } MainWindow.start).m_bFullscreen = false ∧
    callsOf (LoadSettings 160 144 1920 1080
      { SavestateSlot := some 7, ScreenSize := some 9, FullScreen := some false,
        SaveInROMFolder := none }) MainWindow.start =
      [Call.showNormal, Call.glSetMaximumSize 1440 1296, Call.glSetMinimumSize 1440 1296,
       Call.glMove 0 0, Call.setFocus, Call.activateWindow,
       Call.dialogLoadSettings "Input", Call.dialogLoadSettings "Video",
       Call.dialogLoadSettings "Sound"] ∧
    callsOf MenuGameBoySaveState (LoadSettings 160 144 1920 1080
      { SavestateSlot := some 7, ScreenSize := some 9, FullScreen := some false,
        SaveInROMFolder := none } MainWindow.start) = [Call.SaveState 7] ∧
    callsOf MenuGameBoyLoadState (LoadSettings 160 144 1920 1080
      { SavestateSlot := some 7, ScreenSize := some 9, FullScreen := some false,
        SaveInROMFolder := none } MainWindow.start) = [Call.LoadState 7] := by
  refine ⟨rfl, rfl, rfl, rfl, rfl, rfl⟩

/-- C10 (amended): `LoadSettings` takes the persisted values as they are.  For
every persisted record, after `LoadSettings` the member `m_iSelectedSlot` is
the persisted SavestateSlot (1 when the key is missing) and `m_iScreenSize` is
the persisted ScreenSize (2 when the key is missing); so each of them is in
1..5 when the persisted value is in 1..5.  When the persisted mode is windowed
and the products `W*f` and `H*f`, for `f` the persisted ScreenSize, lie in the
range of `int`, every size given to the render surface is `W*f` by `H*f`; what
is passed when a product overflows is left open.  A save-state or load-state
call made after `LoadSettings` targets the persisted slot. -/
theorem load_settings_keeps_persisted_values (W H dw dh : Int) (st : QSettings)
    (s : MainWindow) :
    (LoadSettings W H dw dh st s).m_iSelectedSlot = st.SavestateSlot.getD 1 ∧
    (LoadSettings W H dw dh st s).m_iScreenSize = st.ScreenSize.getD 2 ∧
    (1 ≤ st.SavestateSlot.getD 1 ∧ st.SavestateSlot.getD 1 ≤ 5 →
      1 ≤ (LoadSettings W H dw dh st s).m_iSelectedSlot ∧
      (LoadSettings W H dw dh st s).m_iSelectedSlot ≤ 5) ∧
    (1 ≤ st.ScreenSize.getD 2 ∧ st.ScreenSize.getD 2 ≤ 5 →
      1 ≤ (LoadSettings W H dw dh st s).m_iScreenSize ∧
      (LoadSettings W H dw dh st s).m_iScreenSize ≤ 5) ∧
    (st.FullScreen.getD false = false →
      inIntRange (W * st.ScreenSize.getD 2) = true →
      inIntRange (H * st.ScreenSize.getD 2) = true →
      ∀ a b : Int,
        Call.glSetMaximumSize a b ∈ callsOf (LoadSettings W H dw dh st) s ∨
        Call.glSetMinimumSize a b ∈ callsOf (LoadSettings W H dw dh st) s →
        a = W * st.ScreenSize.getD 2 ∧ b = H * st.ScreenSize.getD 2) ∧
    callsOf MenuGameBoySaveState (LoadSettings W H dw dh st s) =
      [Call.SaveState (st.SavestateSlot.getD 1)] ∧
    callsOf MenuGameBoyLoadState (LoadSettings W H dw dh st s) =
      [Call.LoadState (st.SavestateSlot.getD 1)] := by
  have hslot := LoadSettings_slot W H dw dh st s
  have hsize := LoadSettings_screenSize W H dw dh st s
  refine ⟨hslot, hsize, ?_, ?_, ?_, ?_, ?_⟩
  · rw [hslot]; exact id
  · rw [hsize]; exact id
  · intro hw _ _ a b hab
    rw [callsOf_LoadSettings_windowed W H dw dh st s hw] at hab
    split at hab <;> simp at hab <;> omega
  · simp [MenuGameBoySaveState, callsOf, emit, hslot]
  · simp [MenuGameBoyLoadState, callsOf, emit, hslot]

/-- C10 (amended) at the record SavestateSlot = 3, ScreenSize = 4, windowed,
with native resolution 160 by 144: slot 3 is kept and lies in 1..5, the
products 640 and 576 lie in the range of `int`, and the maximum size given to
the surface, 640 by 576, is four times 160 by 144. -/
theorem load_settings_keeps_persisted_values_witness :
    ((1 : Int) ≤ 3 ∧ (3 : Int) ≤ 5) ∧
    inIntRange (160 * 4) = true ∧ inIntRange (144 * 4) = true ∧
    Call.glSetMaximumSize 640 576 ∈ callsOf (LoadSettings 160 144 1920 1080
      { SavestateSlot := some 3, ScreenSize := some 4, FullScreen := some false,
        SaveInROMFolder := none }) MainWindow.start ∧
    (LoadSettings 160 144 1920 1080
      { SavestateSlot := some 3, ScreenSize := some 4, FullScreen := some false,
        SaveInROMFolder := none } MainWindow.start).m_iSelectedSlot = 3 ∧
    (1 ≤ (LoadSettings 160 144 1920 1080
      { SavestateSlot := some 3, ScreenSize := some 4, FullScreen := some false,
        SaveInROMFolder := none } MainWindow.start).m_iSelectedSlot ∧
     (LoadSettings 160 144 1920 1080
      { SavestateSlot := some 3, ScreenSize := some 4, FullScreen := some false,
        SaveInROMFolder := none } MainWindow.start).m_iSelectedSlot ≤ 5) ∧
    ((640 : Int) = 160 * (some (4 : Int)).getD 2 ∧ (576 : Int) = 144 * (some (4 : Int)).getD 2) :=
  ⟨by decide, by decide, by decide, by decide,
   (load_settings_keeps_persisted_values 160 144 1920 1080
      { SavestateSlot := some 3, ScreenSize := some 4, FullScreen := some false,
        SaveInROMFolder := none } MainWindow.start).1,
   (load_settings_keeps_persisted_values 160 144 1920 1080
      { SavestateSlot := some 3, ScreenSize := some 4, FullScreen := some false,
        SaveInROMFolder := none } MainWindow.start).2.2.1 (by decide),
   (load_settings_keeps_persisted_values 160 144 1920 1080
      { SavestateSlot := some 3, ScreenSize := some 4, FullScreen := some false,
        SaveInROMFolder := none } MainWindow.start).2.2.2.2.1 rfl (by decide) (by decide)
      640 576 (Or.inl (by decide))⟩

end Gearsystem
